import Mathlib

/-!
Verification of the SecretScout scan-orchestration pipeline.

This file gives a shallow embedding, in Lean, of the pure core of the
SecretScout repository (a Rust GitHub-Actions secret-scanning orchestrator)
and proves properties of the embedded functions.  Each definition is a
direct translation of the corresponding Rust item; fallible operations
become `Except`/`Option` values, external effects (file reads, network,
subprocess execution, JSON decoding by serde) become explicit parameters
carrying the already-decoded data.
-/

/- ===================== error.rs ===================== -/

/-- Severity levels of `error.rs`: Fatal exits 1, NonFatal logs and continues,
Expected is normal flow termination with exit 0. -/
inductive ErrorSeverity
  | Fatal
  | NonFatal
  | Expected
deriving DecidableEq

/-- Configuration errors (`ConfigError` in error.rs). -/
inductive ConfigError
  | MissingEnvVar (s : String)
  | InvalidEnvVar (key value : String)
  | InvalidBoolean (s : String)
  | InvalidGitRef (s : String)
  | InvalidPath (s : String)
  | FileNotFound (s : String)
  | PathTraversal (s : String)
  | OutsideWorkspace (s : String)
  | InvalidRepository (s : String)
deriving DecidableEq

/-- Event processing errors (`EventError` in error.rs). -/
inductive EventError
  | UnsupportedEvent (s : String)
  | InvalidEventJson (s : String)
  | MissingField (s : String)
  | NoCommits
  | FetchPRCommits (s : String)
  | InvalidPRNumber (n : Int)
deriving DecidableEq

/-- Binary management errors (`BinaryError` in error.rs). -/
inductive BinaryError
  | UnsupportedPlatform (s : String)
  | UnsupportedArchitecture (s : String)
  | DownloadFailed (s : String)
  | ExtractionFailed (s : String)
  | BinaryNotFound
  | ExecutionFailed (s : String)
  | GitleaksError (code : Int) (stderr : String)
  | ChmodFailed (s : String)
  | CacheError (s : String)
  | VersionResolution (s : String)
deriving DecidableEq

/-- SARIF processing errors (`SarifError` in error.rs). -/
inductive SarifError
  | FileNotFound (s : String)
  | ParseError (s : String)
  | InvalidStructure (s : String)
  | MissingField (s : String)
  | NoResults
deriving DecidableEq

/-- GitHub API errors (`GitHubError` in error.rs). -/
inductive GitHubError
  | RequestFailed (status : Nat) (message : String)
  | AuthenticationFailed (s : String)
  | RateLimitExceeded
  | NotFound (s : String)
  | ParseError (s : String)
  | NetworkError (s : String)
  | Timeout (s : String)
  | DiffTooLarge
  | MaxRetriesExceeded
deriving DecidableEq

/-- Root error type (`Error` in error.rs). -/
inductive Error
  | Config (e : ConfigError)
  | Event (e : EventError)
  | Binary (e : BinaryError)
  | Sarif (e : SarifError)
  | GitHub (e : GitHubError)
  | Io (s : String)
  | Json (s : String)
  | Http (s : String)
  | License (s : String)
  | Unknown (s : String)
deriving DecidableEq

/-- Severity lookup of `Error::severity` in error.rs, with the match arms
in source order and the same fail-closed default to Fatal. -/
def Error.severity : Error → ErrorSeverity
  | Error.Config (ConfigError.MissingEnvVar _) => ErrorSeverity.Fatal
  | Error.Config (ConfigError.InvalidEnvVar _ _) => ErrorSeverity.Fatal
  | Error.Config (ConfigError.PathTraversal _) => ErrorSeverity.Fatal
  | Error.Config (ConfigError.OutsideWorkspace _) => ErrorSeverity.Fatal
  | Error.Event (EventError.UnsupportedEvent _) => ErrorSeverity.Fatal
  | Error.Event EventError.NoCommits => ErrorSeverity.Expected
  | Error.Binary (BinaryError.UnsupportedPlatform _) => ErrorSeverity.Fatal
  | Error.Binary (BinaryError.UnsupportedArchitecture _) => ErrorSeverity.Fatal
  | Error.Binary (BinaryError.DownloadFailed _) => ErrorSeverity.Fatal
  | Error.Binary (BinaryError.GitleaksError _ _) => ErrorSeverity.Fatal
  | Error.Sarif (SarifError.FileNotFound _) => ErrorSeverity.Fatal
  | Error.Sarif (SarifError.ParseError _) => ErrorSeverity.Fatal
  | Error.GitHub (GitHubError.AuthenticationFailed _) => ErrorSeverity.Fatal
  | Error.License _ => ErrorSeverity.Fatal
  | Error.Binary (BinaryError.CacheError _) => ErrorSeverity.NonFatal
  | Error.Binary (BinaryError.VersionResolution _) => ErrorSeverity.NonFatal
  | Error.GitHub GitHubError.DiffTooLarge => ErrorSeverity.NonFatal
  | Error.GitHub (GitHubError.NotFound _) => ErrorSeverity.NonFatal
  | Error.GitHub GitHubError.RateLimitExceeded => ErrorSeverity.NonFatal
  | _ => ErrorSeverity.Fatal

/- ===================== events/mod.rs ===================== -/

/-- Supported GitHub event types (`EventType` in events/mod.rs). -/
inductive EventType
  | Push
  | PullRequest
  | WorkflowDispatch
  | Schedule
deriving DecidableEq

/-- Commit author (`Author` in events/mod.rs). -/
structure Author where
  name : String
  email : String
deriving DecidableEq

/-- A commit record (`Commit` in events/mod.rs). -/
structure Commit where
  sha : String
  author : Author
  message : String
deriving DecidableEq

/-- Repository identity (`Repository` in events/mod.rs). -/
structure Repository where
  owner : String
  name : String
  full_name : String
  html_url : String
deriving DecidableEq

/-- Git reference (`GitReference` in events/mod.rs). -/
structure GitReference where
  sha : String
  ref_name : String
deriving DecidableEq

/-- Pull request descriptor (`PullRequest` in events/mod.rs). -/
structure PullRequest where
  number : Int
  base : GitReference
  head : GitReference
deriving DecidableEq

/-- Complete event context (`EventContext` in events/mod.rs). -/
structure EventContext where
  event_type : EventType
  repository : Repository
  base_ref : String
  head_ref : String
  commits : List Commit
  pull_request : Option PullRequest
deriving DecidableEq

/-- One entry of the push payload's commits array, as seen by `parse_commit`
in events/mod.rs: each field is the result of the corresponding JSON
lookup (`commit_json["id"].as_str()` and so on), `none` when the field is
absent or not a string. -/
structure CommitJson where
  id : Option String
  author_name : Option String
  author_email : Option String
  message : Option String
deriving DecidableEq

/-- Rust `parse_commit` (events/mod.rs): all four lookups must succeed,
otherwise the entry yields no commit. -/
def parse_commit (c : CommitJson) : Option Commit :=
  match c.id, c.author_name, c.author_email, c.message with
  | some sha, some name, some email, some msg =>
      some { sha := sha, author := { name := name, email := email }, message := msg }
  | _, _, _, _ => none

/-- Rust `parse_push_event` (events/mod.rs), with the already-decoded
commits array and the configured base-ref override as inputs.  The raw
array is checked for emptiness, malformed entries are filtered out by
`parse_commit`, the surviving list is checked for emptiness again, and
base/head refs are derived from the surviving commits. -/
def parse_push_event (commits_array : List CommitJson) (repository : Repository)
    (config_base_ref : Option String) : Except EventError EventContext :=
  if commits_array.isEmpty then
    Except.error EventError.NoCommits
  else
    match commits_array.filterMap parse_commit with
    | [] => Except.error EventError.NoCommits
    | first :: rest =>
        Except.ok {
          event_type := EventType.Push,
          repository := repository,
          base_ref := config_base_ref.getD first.sha,
          head_ref := ((first :: rest).getLast (List.cons_ne_nil first rest)).sha,
          commits := first :: rest,
          pull_request := none }

/-- Rust `build_log_opts` (events/mod.rs): the gitleaks log-opts string
derived from the event context. -/
def build_log_opts (context : EventContext) : String :=
  match context.event_type with
  | EventType.Push =>
      if context.base_ref = context.head_ref then
        "-1"
      else
        "--no-merges --first-parent " ++ context.base_ref ++ "^.." ++ context.head_ref
  | EventType.PullRequest =>
      "--no-merges --first-parent " ++ context.base_ref ++ "^.." ++ context.head_ref
  | EventType.WorkflowDispatch => ""
  | EventType.Schedule => ""

/- ===================== binary/mod.rs ===================== -/

/-- Platform enumeration (`Platform` in binary/mod.rs). -/
inductive Platform
  | Linux
  | Darwin
  | Windows
deriving DecidableEq

/-- CPU architecture enumeration (`Architecture` in binary/mod.rs). -/
inductive Architecture
  | X64
  | Arm64
  | Arm
deriving DecidableEq

/-- Rust `Platform::as_str`. -/
def Platform.as_str : Platform → String
  | Platform.Linux => "linux"
  | Platform.Darwin => "darwin"
  | Platform.Windows => "windows"

/-- Rust `Architecture::as_str`. -/
def Architecture.as_str : Architecture → String
  | Architecture.X64 => "x64"
  | Architecture.Arm64 => "arm64"
  | Architecture.Arm => "arm"

/-- Rust `get_cache_key` (binary/mod.rs). -/
def get_cache_key (version : String) (platform : Platform) (arch : Architecture) : String :=
  "gitleaks-" ++ version ++ "-" ++ platform.as_str ++ "-" ++ arch.as_str

/-- Gitleaks execution result (`ExecutionResult` in binary/mod.rs). -/
structure ExecutionResult where
  exit_code : Int
  stdout : String
  stderr : String
deriving DecidableEq

/-- Rust `execute_gitleaks` (binary/mod.rs), abstracted over the engine
process: its inputs are the exit status observed from the engine
(`output.status.code().unwrap_or(-1)`) and the captured streams.  Exit
code 1 is escalated to a `GitleaksError` at this layer; every other exit
code is returned as an `ExecutionResult` for the caller to interpret. -/
def execute_gitleaks (exit_code : Int) (stdout stderr : String) :
    Except Error ExecutionResult :=
  if exit_code = 1 then
    Except.error (Error.Binary (BinaryError.GitleaksError exit_code stderr))
  else
    Except.ok { exit_code := exit_code, stdout := stdout, stderr := stderr }

/- ===================== sarif/types.rs ===================== -/

/-- Artifact content snippet (`ArtifactContent` in sarif/types.rs). -/
structure ArtifactContent where
  text : String
deriving DecidableEq

/-- Region within an artifact (`Region` in sarif/types.rs). -/
structure Region where
  start_line : Nat
  start_column : Option Nat
  end_line : Option Nat
  end_column : Option Nat
  snippet : Option ArtifactContent
deriving DecidableEq

/-- Artifact location (`ArtifactLocation` in sarif/types.rs). -/
structure ArtifactLocation where
  uri : String
deriving DecidableEq

/-- Physical location (`PhysicalLocation` in sarif/types.rs). -/
structure PhysicalLocation where
  artifact_location : ArtifactLocation
  region : Region
deriving DecidableEq

/-- Result location (`Location` in sarif/types.rs). -/
structure Location where
  physical_location : PhysicalLocation
deriving DecidableEq

/-- Result message (`Message` in sarif/types.rs). -/
structure Message where
  text : String
deriving DecidableEq

/-- Commit metadata fingerprint block (`PartialFingerprints` in
sarif/types.rs); all four fields are optional in the report. -/
structure PartialFingerprints where
  commit_sha : Option String
  author : Option String
  email : Option String
  date : Option String
deriving DecidableEq

/-- A single analysis result (the struct named `Result` in sarif/types.rs,
renamed here because `Result` would shadow too much in Lean). -/
structure SarifResult where
  rule_id : String
  message : Message
  locations : List Location
  partial_fingerprints : Option PartialFingerprints
  level : Option String
deriving DecidableEq

/-- Tool driver (`Driver` in sarif/types.rs). -/
structure Driver where
  name : String
  version : Option String
  information_uri : Option String
deriving DecidableEq

/-- Tool identity (`Tool` in sarif/types.rs). -/
structure Tool where
  driver : Driver
deriving DecidableEq

/-- One run of the tool (`Run` in sarif/types.rs). -/
structure Run where
  tool : Tool
  results : List SarifResult
deriving DecidableEq

/-- Root SARIF document (`SarifReport` in sarif/types.rs). -/
structure SarifReport where
  schema : Option String
  version : String
  runs : List Run
deriving DecidableEq

/-- Normalized finding (`DetectedSecret` in sarif/types.rs). -/
structure DetectedSecret where
  rule_id : String
  file_path : String
  line_number : Nat
  commit_sha : String
  author : String
  email : String
  date : String
  fingerprint : String
deriving DecidableEq

/-- Rust `DetectedSecret::generate_fingerprint` (sarif/types.rs). -/
def DetectedSecret.generate_fingerprint (commit_sha file_path rule_id : String)
    (line_number : Nat) : String :=
  commit_sha ++ ":" ++ file_path ++ ":" ++ rule_id ++ ":" ++ toString line_number

/-- Rust `DetectedSecret::short_sha` (sarif/types.rs). -/
def DetectedSecret.short_sha (s : DetectedSecret) : String :=
  if s.commit_sha.length ≥ 7 then s.commit_sha.take 7 else s.commit_sha

/-- Rust `DetectedSecret::commit_url` (sarif/types.rs). -/
def DetectedSecret.commit_url (s : DetectedSecret) (repo_url : String) : String :=
  repo_url ++ "/commit/" ++ s.commit_sha

/-- Rust `DetectedSecret::secret_url` (sarif/types.rs). -/
def DetectedSecret.secret_url (s : DetectedSecret) (repo_url : String) : String :=
  repo_url ++ "/blob/" ++ s.commit_sha ++ "/" ++ s.file_path ++ "#L" ++ toString s.line_number

/-- Rust `DetectedSecret.file_url` (sarif/types.rs). -/
def DetectedSecret.file_url (s : DetectedSecret) (repo_url : String) : String :=
  repo_url ++ "/blob/" ++ s.commit_sha ++ "/" ++ s.file_path

/-- The `impl From for Option DetectedSecret` conversion in sarif/types.rs:
the first location is required, then the fingerprint block is required;
each absent field inside the block defaults to the string "unknown". -/
def detectedSecretOfResult (result : SarifResult) : Option DetectedSecret :=
  match result.locations.head? with
  | none => none
  | some location =>
    match result.partial_fingerprints with
    | none => none
    | some fingerprints =>
      let file_path := location.physical_location.artifact_location.uri
      let line_number := location.physical_location.region.start_line
      let commit_sha := fingerprints.commit_sha.getD "unknown"
      let author := fingerprints.author.getD "unknown"
      let email := fingerprints.email.getD "unknown"
      let date := fingerprints.date.getD "unknown"
      some {
        rule_id := result.rule_id,
        file_path := file_path,
        line_number := line_number,
        commit_sha := commit_sha,
        author := author,
        email := email,
        date := date,
        fingerprint := DetectedSecret.generate_fingerprint commit_sha file_path
          result.rule_id line_number }

/- ===================== sarif/mod.rs ===================== -/

/-- Rust `parse_sarif_str` (sarif/mod.rs) after the serde JSON decoding
stage: its input is the already-decoded report and it performs the
structural validation, rejecting a report whose runs collection is empty. -/
def parse_sarif_str (report : SarifReport) : Except SarifError SarifReport :=
  if report.runs.isEmpty then
    Except.error (SarifError.InvalidStructure "No runs found in SARIF report")
  else
    Except.ok report

/-- Rust `extract_findings` (sarif/mod.rs): the nested loop over runs and
results; a result with no locations is skipped (logged as a warning), a
result whose conversion fails is skipped (logged as a warning), and the
function always returns Ok. -/
def extract_findings (report : SarifReport) : Except SarifError (List DetectedSecret) :=
  Except.ok (report.runs.flatMap (fun run =>
    run.results.filterMap (fun result =>
      if result.locations.isEmpty then none
      else detectedSecretOfResult result)))

/- ===================== outputs/summary.rs ===================== -/

/-- Rust `escape_html` (outputs/summary.rs). -/
def escape_html (text : String) : String :=
  ((((text.replace "&" "&amp;").replace "<" "&lt;").replace ">" "&gt;").replace
    "\"" "&quot;").replace "\x27" "&#39;"

/-- Rust `generate_success_summary` (outputs/summary.rs). -/
def generate_success_summary : String :=
  "## No leaks detected ✅\n"

/-- Rust `generate_error_summary` (outputs/summary.rs). -/
def generate_error_summary (exit_code : Int) : String :=
  "## ❌ Gitleaks exited with error. Exit code [" ++ toString exit_code ++ "]\n"

/-- One table row of the findings summary (the loop body in
`generate_findings_summary`, outputs/summary.rs). -/
def findings_row (html_url : String) (finding : DetectedSecret) : String :=
  "<tr>\n"
    ++ "  <td>" ++ escape_html finding.rule_id ++ "</td>\n"
    ++ "  <td><a href=\"" ++ finding.commit_url html_url ++ "\">"
      ++ finding.short_sha ++ "</a></td>\n"
    ++ "  <td><a href=\"" ++ finding.secret_url html_url ++ "\">View Secret</a></td>\n"
    ++ "  <td>" ++ toString finding.line_number ++ "</td>\n"
    ++ "  <td>" ++ escape_html finding.author ++ "</td>\n"
    ++ "  <td>" ++ escape_html finding.date ++ "</td>\n"
    ++ "  <td>" ++ escape_html finding.email ++ "</td>\n"
    ++ "  <td><a href=\"" ++ finding.file_url html_url ++ "\">"
      ++ escape_html finding.file_path ++ "</a></td>\n"
    ++ "</tr>\n"

/-- Rust `generate_findings_summary` (outputs/summary.rs). -/
def generate_findings_summary (repository : Repository)
    (findings : List DetectedSecret) : String :=
  let header := "## 🛑 Gitleaks detected secrets 🛑\n\n"
    ++ "<table>\n" ++ "<tr>\n"
    ++ "  <th>Rule ID</th>\n" ++ "  <th>Commit</th>\n" ++ "  <th>Secret URL</th>\n"
    ++ "  <th>Start Line</th>\n" ++ "  <th>Author</th>\n" ++ "  <th>Date</th>\n"
    ++ "  <th>Email</th>\n" ++ "  <th>File</th>\n" ++ "</tr>\n"
  (findings.foldl (fun acc finding => acc ++ findings_row repository.html_url finding)
    header) ++ "</table>\n"

/- ===================== github/mod.rs ===================== -/

/-- One already-fetched review comment as inspected by
`is_duplicate_comment` (github/mod.rs): each field holds the result of the
corresponding JSON accessor (`comment["body"].as_str()`,
`comment["path"].as_str()`, `comment["line"].as_u64()`), `none` when the
field is absent or of the wrong type. -/
structure ReviewCommentJson where
  body : Option String
  path : Option String
  line : Option Nat
deriving DecidableEq

/-- The per-comment condition inside the loop of `is_duplicate_comment`
(github/mod.rs): absent body and path default to the empty string, an
absent line defaults to 0, and the u64 line value is truncated to u32. -/
def comment_matches (c : ReviewCommentJson) (new_body new_path : String)
    (new_line : Nat) : Bool :=
  (c.body.getD "" == new_body) && (c.path.getD "" == new_path)
    && ((c.line.getD 0) % 4294967296 == new_line)

/-- Rust `is_duplicate_comment` (github/mod.rs): the loop over existing
comments, returning true on the first match. -/
def is_duplicate_comment (existing_comments : List ReviewCommentJson)
    (new_body new_path : String) (new_line : Nat) : Bool :=
  match existing_comments with
  | [] => false
  | c :: rest =>
      if comment_matches c new_body new_path new_line then true
      else is_duplicate_comment rest new_body new_path new_line

/- ===================== github_actions/mod.rs and main.rs ===================== -/

/-- The output-related configuration flags consumed by the orchestrator run
(fields of `Config` in config/mod.rs). -/
structure RunFlags where
  enable_summary : Bool
  enable_comments : Bool
  enable_upload_artifact : Bool
deriving DecidableEq

namespace github_actions

/-- Step 5 of `run` (github_actions/mod.rs): the three-way branch on the
engine exit code.  `sarifOutcome` stands for the result of
`sarif parse_and_extract` on the report file (only consulted in the
findings branch, where its error propagates), and `commentOutcome` stands
for the result of `outputs post_pr_comments` (caught in the source and
only logged, so the returned pair does not depend on it).  The first
component collects the summary strings passed to `write_summary`, in
order; the second is the value `run` returns. -/
def process_exit_code (flags : RunFlags) (event_context : EventContext)
    (sarifOutcome : Except Error (List DetectedSecret))
    (commentOutcome : Except Error Nat)
    (result : ExecutionResult) : List String × Except Error Int :=
  if result.exit_code = 0 then
    ((if flags.enable_summary then [generate_success_summary] else []), Except.ok 0)
  else if result.exit_code = 2 then
    match sarifOutcome with
    | Except.error e => ([], Except.error e)
    | Except.ok findings =>
        ((if flags.enable_summary then
            [generate_findings_summary event_context.repository findings]
          else []),
         Except.ok 1)
  else if result.exit_code = 1 then
    ((if flags.enable_summary then [generate_error_summary 1] else []), Except.ok 1)
  else
    ((if flags.enable_summary then [generate_error_summary result.exit_code] else []),
     Except.ok result.exit_code)

/-- Steps 4 and 5 of `run` (github_actions/mod.rs): `execute_gitleaks`
followed by the exit-code branch; an error from `execute_gitleaks`
propagates immediately (the `?` operator), before any summary is
attempted. -/
def run (flags : RunFlags) (event_context : EventContext)
    (sarifOutcome : Except Error (List DetectedSecret))
    (commentOutcome : Except Error Nat)
    (exit_code : Int) (stdout stderr : String) : List String × Except Error Int :=
  match execute_gitleaks exit_code stdout stderr with
  | Except.error e => ([], Except.error e)
  | Except.ok result =>
      process_exit_code flags event_context sarifOutcome commentOutcome result

end github_actions

/-- The exit-code mapping in `main` (main.rs): a returned code passes
through, an error exits 0 when its severity is Expected and 1 otherwise. -/
def main_exit_code (runResult : Except Error Int) : Int :=
  match runResult with
  | Except.ok code => code
  | Except.error e =>
      match e.severity with
      | ErrorSeverity.Expected => 0
      | _ => 1

/- ===================== shared concrete fixtures ===================== -/

/-- A concrete repository used by several witnesses. -/
def repo0 : Repository :=
  { owner := "owner", name := "repo", full_name := "owner/repo",
    html_url := "https://github.com/owner/repo" }

/-- A concrete push event context used by several witnesses. -/
def ctx0 : EventContext :=
  { event_type := EventType.Push, repository := repo0, base_ref := "abc123",
    head_ref := "def456", commits := [], pull_request := none }

/-- A concrete tool identity used by several witnesses. -/
def tool0 : Tool :=
  { driver := { name := "gitleaks", version := some "8.24.3", information_uri := none } }

/-- A concrete location (src/config.rs line 42) used by several witnesses. -/
def loc0 : Location :=
  { physical_location :=
    { artifact_location := { uri := "src/config.rs" },
      region := { start_line := 42, start_column := none, end_line := none,
                  end_column := none, snippet := none } } }

/- ===================== helper lemmas ===================== -/

/-- The guard on empty locations inside `extract_findings` is redundant with
the conversion itself, which already drops a result without locations. -/
theorem guarded_conversion_eq (result : SarifResult) :
    (if result.locations.isEmpty then none else detectedSecretOfResult result) =
      detectedSecretOfResult result := by
  by_cases h : result.locations.isEmpty
  · have hnil : result.locations = [] := by
      cases hl : result.locations with
      | nil => rfl
      | cons a t => rw [hl] at h; simp at h
    simp [detectedSecretOfResult, hnil, h]
  · simp [h]

/-- Flattening runs first and then filtering results is the same as
filtering inside each run. -/
theorem filterMap_flatMap_results (runs : List Run)
    (f : SarifResult → Option DetectedSecret) :
    runs.flatMap (fun run => run.results.filterMap f) =
      (runs.flatMap Run.results).filterMap f := by
  induction runs with
  | nil => rfl
  | cons r rs ih => simp [List.flatMap_cons, List.filterMap_append, ih]

/-- The duplicate-comment loop is the same as an existential scan of the
per-comment condition. -/
theorem is_duplicate_comment_eq_any (l : List ReviewCommentJson) (b p : String) (n : Nat) :
    is_duplicate_comment l b p n = l.any (fun d => comment_matches d b p n) := by
  induction l with
  | nil => rfl
  | cons d t ih =>
    by_cases h : comment_matches d b p n <;>
      simp [is_duplicate_comment, List.any_cons, h, ih]

/- ===================== claims ===================== -/

/-- Claim C2: build_log_opts returns the single-commit marker "-1" for a
Push context with equal refs, the first-parent exclusive range string
containing both refs for a Push context with differing refs and for every
PullRequest context, and the empty string for WorkflowDispatch and
Schedule contexts. -/
theorem C2_build_log_opts (context : EventContext) :
    (context.event_type = EventType.Push → context.base_ref = context.head_ref →
      build_log_opts context = "-1") ∧
    (context.event_type = EventType.Push → context.base_ref ≠ context.head_ref →
      build_log_opts context =
        "--no-merges --first-parent " ++ context.base_ref ++ "^.." ++ context.head_ref) ∧
    (context.event_type = EventType.PullRequest →
      build_log_opts context =
        "--no-merges --first-parent " ++ context.base_ref ++ "^.." ++ context.head_ref) ∧
    ((context.event_type = EventType.WorkflowDispatch ∨
      context.event_type = EventType.Schedule) →
      build_log_opts context = "") := by
  refine ⟨?_, ?_, ?_, ?_⟩
  · intro ht he; simp [build_log_opts, ht, he]
  · intro ht he; simp [build_log_opts, ht, he]
  · intro ht; simp [build_log_opts, ht]
  · rintro (ht | ht) <;> simp [build_log_opts, ht]

/-- Witness for C2: the four branches evaluated at concrete contexts. -/
theorem C2_build_log_opts_witness :
    build_log_opts { ctx0 with head_ref := "abc123" } = "-1" ∧
    build_log_opts ctx0 = "--no-merges --first-parent abc123^..def456" ∧
    build_log_opts { ctx0 with event_type := EventType.PullRequest } =
      "--no-merges --first-parent abc123^..def456" ∧
    build_log_opts { ctx0 with event_type := EventType.WorkflowDispatch } = "" :=
  ⟨(C2_build_log_opts _).1 rfl rfl,
   ((C2_build_log_opts _).2.1 rfl (by decide)).trans (by decide),
   ((C2_build_log_opts _).2.2.1 rfl).trans (by decide),
   (C2_build_log_opts _).2.2.2 (Or.inl rfl)⟩

/-- Claim C3: a push payload with an empty commits array fails parsing with
NoCommits, the severity of NoCommits is Expected, and the main exit-code
mapping therefore turns that error into exit code 0. -/
theorem C3_empty_push_exits_zero (repo : Repository) (config_base_ref : Option String) :
    parse_push_event [] repo config_base_ref = Except.error EventError.NoCommits ∧
    (Error.Event EventError.NoCommits).severity = ErrorSeverity.Expected ∧
    main_exit_code (Except.error (Error.Event EventError.NoCommits)) = 0 :=
  ⟨rfl, rfl, rfl⟩

/-- Claim C4: a report whose runs collection is empty is rejected with
InvalidStructure; a report with exactly one run and zero results passes
validation, and extraction over it yields the empty findings list. -/
theorem C4_report_validation (report : SarifReport) :
    (report.runs = [] →
      parse_sarif_str report =
        Except.error (SarifError.InvalidStructure "No runs found in SARIF report")) ∧
    (∀ run, report.runs = [run] → run.results = [] →
      parse_sarif_str report = Except.ok report ∧
      extract_findings report = Except.ok []) := by
  constructor
  · intro h; simp [parse_sarif_str, h]
  · intro run h hr
    refine ⟨by simp [parse_sarif_str, h], ?_⟩
    simp [extract_findings, h, hr]

/-- A report with no runs, used by the C4 witness. -/
def emptyRunsReport : SarifReport := { schema := none, version := "2.1.0", runs := [] }

/-- A run with zero results, used by witnesses. -/
def emptyRun : Run := { tool := tool0, results := [] }

/-- A report with exactly one run and zero results, used by the C4 witness. -/
def oneRunReport : SarifReport :=
  { schema := none, version := "2.1.0", runs := [emptyRun] }

/-- Witness for C4: the two report shapes evaluated concretely. -/
theorem C4_report_validation_witness :
    parse_sarif_str emptyRunsReport =
      Except.error (SarifError.InvalidStructure "No runs found in SARIF report") ∧
    parse_sarif_str oneRunReport = Except.ok oneRunReport ∧
    extract_findings oneRunReport = Except.ok [] :=
  ⟨(C4_report_validation emptyRunsReport).1 rfl,
   ((C4_report_validation oneRunReport).2 emptyRun rfl rfl).1,
   ((C4_report_validation oneRunReport).2 emptyRun rfl rfl).2⟩

/-- Claim C5: extraction never fails; it returns Ok with exactly the
convertible results of all runs, in report order, and a result is dropped
by the conversion precisely when it lacks locations or lacks the
fingerprint block. -/
theorem C5_extraction_drops (report : SarifReport) :
    extract_findings report =
      Except.ok ((report.runs.flatMap Run.results).filterMap detectedSecretOfResult) ∧
    (∀ result : SarifResult,
      detectedSecretOfResult result = none ↔
        (result.locations = [] ∨ result.partial_fingerprints = none)) := by
  constructor
  · simp only [extract_findings, guarded_conversion_eq]
    rw [filterMap_flatMap_results]
  · intro result
    cases hl : result.locations with
    | nil => simp [detectedSecretOfResult, hl]
    | cons a t =>
      cases hf : result.partial_fingerprints with
      | none => simp [detectedSecretOfResult, hl, hf]
      | some fp => simp [detectedSecretOfResult, hl, hf]

/-- Claim C6: fingerprint generation is the deterministic colon-joined
formatting of its four arguments, and the documented example evaluates to
the documented string. -/
theorem C6_fingerprint_format :
    (∀ (commit_sha file_path rule_id : String) (line_number : Nat),
      DetectedSecret.generate_fingerprint commit_sha file_path rule_id line_number =
        commit_sha ++ ":" ++ file_path ++ ":" ++ rule_id ++ ":" ++ toString line_number) ∧
    DetectedSecret.generate_fingerprint "abc123" "src/main.rs" "aws-access-token" 42 =
      "abc123:src/main.rs:aws-access-token:42" :=
  ⟨fun _ _ _ _ => rfl, by decide⟩

/-- Claim C9: a result with at least one location and a present fingerprint
block is normalized even when the block's fields are all absent; each
absent field defaults to "unknown", the defaulted commit sha is embedded
in the computed fingerprint, and (given a location) only a wholly absent
block makes the conversion drop the result. -/
theorem C9_fingerprint_defaults (result : SarifResult) (loc : Location)
    (rest : List Location) (h : result.locations = loc :: rest) :
    (detectedSecretOfResult result = none ↔ result.partial_fingerprints = none) ∧
    (∀ fp, result.partial_fingerprints = some fp →
      detectedSecretOfResult result = some {
          rule_id := result.rule_id,
          file_path := loc.physical_location.artifact_location.uri,
          line_number := loc.physical_location.region.start_line,
          commit_sha := fp.commit_sha.getD "unknown",
          author := fp.author.getD "unknown",
          email := fp.email.getD "unknown",
          date := fp.date.getD "unknown",
          fingerprint := DetectedSecret.generate_fingerprint (fp.commit_sha.getD "unknown")
            loc.physical_location.artifact_location.uri result.rule_id
            loc.physical_location.region.start_line }) ∧
    (∀ fp, result.partial_fingerprints = some fp → fp.commit_sha = none →
      ∃ s, detectedSecretOfResult result = some s ∧ s.commit_sha = "unknown" ∧
        s.fingerprint = "unknown:" ++ loc.physical_location.artifact_location.uri ++ ":"
          ++ result.rule_id ++ ":" ++ toString loc.physical_location.region.start_line) := by
  refine ⟨?_, ?_, ?_⟩
  · cases hf : result.partial_fingerprints with
    | none => simp [detectedSecretOfResult, h, hf]
    | some fp => simp [detectedSecretOfResult, h, hf]
  · intro fp hf
    simp [detectedSecretOfResult, h, hf]
  · intro fp hf hcs
    obtain ⟨cs, au, em, da⟩ := fp
    cases hcs
    simp only [detectedSecretOfResult, h, hf, List.head?_cons]
    exact ⟨_, rfl, rfl, rfl⟩

/-- A fingerprint block with every field absent, used by the C9 witness. -/
def emptyFingerprints : PartialFingerprints :=
  { commit_sha := none, author := none, email := none, date := none }

/-- A result whose fingerprint block is present but entirely empty, used by
the C9 witness. -/
def emptyFingerprintResult : SarifResult :=
  { rule_id := "aws-access-token", message := { text := "AWS Access Key detected" },
    locations := [loc0], partial_fingerprints := some emptyFingerprints, level := none }

/-- Witness for C9: the empty-fingerprint-block result is normalized with
"unknown" defaults and the defaulted sha appears in the fingerprint. -/
theorem C9_fingerprint_defaults_witness :
    ∃ s, detectedSecretOfResult emptyFingerprintResult = some s ∧
      s.commit_sha = "unknown" ∧
      s.fingerprint = "unknown:" ++ "src/config.rs" ++ ":" ++ "aws-access-token" ++ ":"
        ++ toString (42 : Nat) :=
  (C9_fingerprint_defaults emptyFingerprintResult loc0 [] rfl).2.2
    emptyFingerprints rfl rfl

/-- Claim C10: push-event commit entries missing id, author name, author
email, or message are filtered out; a non-empty commits array whose
entries are all malformed also fails with NoCommits; for a partially
malformed array the base ref defaults to the first surviving commit's sha
(absent a configured override) and the head ref is the last surviving
commit's sha. -/
theorem C10_push_filtering (arr : List CommitJson) (repo : Repository)
    (config_base_ref : Option String) :
    (∀ c : CommitJson,
      (c.id = none ∨ c.author_name = none ∨ c.author_email = none ∨ c.message = none) →
      parse_commit c = none) ∧
    (arr ≠ [] → arr.filterMap parse_commit = [] →
      parse_push_event arr repo config_base_ref = Except.error EventError.NoCommits) ∧
    (∀ first rest, arr.filterMap parse_commit = first :: rest →
      ∃ ctx, parse_push_event arr repo config_base_ref = Except.ok ctx ∧
        ctx.base_ref = config_base_ref.getD first.sha ∧
        ctx.head_ref = ((first :: rest).getLast (List.cons_ne_nil first rest)).sha ∧
        ctx.commits = first :: rest) := by
  refine ⟨?_, ?_, ?_⟩
  · intro c h
    cases hid : c.id <;> cases han : c.author_name <;> cases hae : c.author_email <;>
      cases hm : c.message <;> simp_all [parse_commit]
  · intro hne hfm
    cases arr with
    | nil => exact absurd rfl hne
    | cons a t => simp [parse_push_event, hfm]
  · intro first rest hfm
    cases arr with
    | nil => simp at hfm
    | cons a t =>
        simp only [parse_push_event, List.isEmpty_cons, Bool.false_eq_true,
          if_false, hfm]
        exact ⟨_, rfl, rfl, rfl, rfl⟩

/-- A malformed commit entry (no author email), used by the C10 witness. -/
def badCommitJson : CommitJson :=
  { id := some "badc0de", author_name := some "Jane", author_email := none,
    message := some "wip" }

/-- A well-formed commit entry, used by the C10 witness. -/
def goodCommitJson1 : CommitJson :=
  { id := some "abc123", author_name := some "Jane", author_email := some "jane@example.com",
    message := some "first" }

/-- A second well-formed commit entry, used by the C10 witness. -/
def goodCommitJson2 : CommitJson :=
  { id := some "def456", author_name := some "Joe", author_email := some "joe@example.com",
    message := some "second" }

/-- Witness for C10: an all-malformed non-empty array fails with NoCommits,
and a partially malformed array yields base and head refs from the
surviving commits. -/
theorem C10_push_filtering_witness :
    parse_commit badCommitJson = none ∧
    parse_push_event [badCommitJson] repo0 none = Except.error EventError.NoCommits ∧
    ∃ ctx, parse_push_event [badCommitJson, goodCommitJson1, goodCommitJson2] repo0 none =
        Except.ok ctx ∧
      ctx.base_ref = "abc123" ∧ ctx.head_ref = "def456" := by
  refine ⟨?_, ?_, ?_⟩
  · exact (C10_push_filtering [] repo0 none).1 badCommitJson (by simp [badCommitJson])
  · exact (C10_push_filtering [badCommitJson] repo0 none).2.1 (by simp) (by decide)
  · obtain ⟨ctx, hctx, hbase, hhead, -⟩ :=
      (C10_push_filtering [badCommitJson, goodCommitJson1, goodCommitJson2] repo0 none).2.2
        { sha := "abc123", author := { name := "Jane", email := "jane@example.com" }, message := "first" }
        [{ sha := "def456", author := { name := "Joe", email := "joe@example.com" }, message := "second" }]
        (by decide)
    exact ⟨ctx, hctx, hbase, hhead⟩

/-- Claim C8: a candidate review comment whose body, path, and line all
equal those of an existing comment is detected as a duplicate; changing
any one of the three fields makes the candidate not match that comment;
and when no existing comment matches, the candidate is not a duplicate. -/
theorem C8_comment_dedup (existing : List ReviewCommentJson) (c : ReviewCommentJson)
    (B P : String) (L : Nat) (hmem : c ∈ existing)
    (hb : c.body = some B) (hp : c.path = some P) (hl : c.line = some L)
    (hL : L < 2 ^ 32) :
    is_duplicate_comment existing B P L = true ∧
    (∀ B2, B2 ≠ B → comment_matches c B2 P L = false) ∧
    (∀ P2, P2 ≠ P → comment_matches c B P2 L = false) ∧
    (∀ L2, L2 ≠ L → comment_matches c B P L2 = false) ∧
    (∀ b p l, (∀ d ∈ existing, comment_matches d b p l = false) →
      is_duplicate_comment existing b p l = false) := by
  have hmod : L % 4294967296 = L := Nat.mod_eq_of_lt hL
  have hmatch : comment_matches c B P L = true := by
    simp [comment_matches, hb, hp, hl, hmod]
  refine ⟨?_, ?_, ?_, ?_, ?_⟩
  · rw [is_duplicate_comment_eq_any]
    exact List.any_eq_true.mpr ⟨c, hmem, hmatch⟩
  · intro B2 hne
    simp [comment_matches, hb, hp, hl, hmod, Ne.symm hne]
  · intro P2 hne
    simp [comment_matches, hb, hp, hl, hmod, Ne.symm hne]
  · intro L2 hne
    simp [comment_matches, hb, hp, hl, hmod, Ne.symm hne]
  · intro b p l hall
    rw [is_duplicate_comment_eq_any]
    exact List.any_eq_false.mpr (fun d hd => by simp [hall d hd])

/-- A run-flags fixture with every output enabled, used by the C1 theorems. -/
def flags0 : RunFlags :=
  { enable_summary := true, enable_comments := true, enable_upload_artifact := true }

/-- An existing review comment fixture for the C8 witness. -/
def existingComment0 : ReviewCommentJson :=
  { body := some "leak here", path := some "src/config.rs", line := some 42 }

/-- Witness for C8: an identical (body, path, line) triple is a duplicate of
the one existing comment; changing any single field defeats the match and,
the list having no other comment, the candidate is then not a duplicate. -/
theorem C8_comment_dedup_witness :
    is_duplicate_comment [existingComment0] "leak here" "src/config.rs" 42 = true ∧
    comment_matches existingComment0 "other body" "src/config.rs" 42 = false ∧
    comment_matches existingComment0 "leak here" "src/other.rs" 42 = false ∧
    comment_matches existingComment0 "leak here" "src/config.rs" 43 = false := by
  obtain ⟨h1, h2, h3, h4, -⟩ :=
    C8_comment_dedup [existingComment0] existingComment0 "leak here" "src/config.rs" 42
      (by decide) rfl rfl rfl (by norm_num)
  exact ⟨h1, h2 "other body" (by decide), h3 "src/other.rs" (by decide),
    h4 43 (by decide)⟩

/-- Claim C1 as stated is false at engine exit status 1: `execute_gitleaks`
escalates status 1 to a GitleaksError before the exit-status branch, so
the orchestrator run writes no summary (even with summaries enabled) and
returns that error instead of the engine's own status code. -/
theorem C1_counterexample :
    github_actions.run flags0 ctx0 (Except.ok []) (Except.ok 0) 1 "" "" =
      ([], Except.error (Error.Binary (BinaryError.GitleaksError 1 ""))) ∧
    github_actions.run flags0 ctx0 (Except.ok []) (Except.ok 0) 1 "" "" ≠
      ([generate_error_summary 1], Except.ok 1) := by
  refine ⟨rfl, ?_⟩
  intro h
  rw [show github_actions.run flags0 ctx0 (Except.ok []) (Except.ok 0) 1 "" "" =
      ([], Except.error (Error.Binary (BinaryError.GitleaksError 1 ""))) from rfl] at h
  simp at h

/-- Claim C1 amended: for every engine exit status other than 0, 1 and 2
the orchestrator run writes an error summary when summaries are enabled
and returns the engine's own status code; engine status 1, however, is
escalated to a GitleaksError inside `execute_gitleaks` before the
exit-status branch runs, so on status 1 the run returns that error and
writes no summary.  The reachable branches (status 0, the findings status
2 with a readable report, and every other status) do attempt their
summary when summaries are enabled, and the returned pair never depends
on the outcome of comment posting, which the run only logs. -/
theorem C1_error_branch (flags : RunFlags) (event_context : EventContext)
    (sarifOutcome : Except Error (List DetectedSecret))
    (commentOutcome : Except Error Nat) (exit_code : Int) (stdout stderr : String)
    (h0 : exit_code ≠ 0) (h1 : exit_code ≠ 1) (h2 : exit_code ≠ 2)
    (hs : flags.enable_summary = true) :
    github_actions.run flags event_context sarifOutcome commentOutcome
        exit_code stdout stderr =
      ([generate_error_summary exit_code], Except.ok exit_code) ∧
    github_actions.run flags event_context sarifOutcome commentOutcome 1 stdout stderr =
      ([], Except.error (Error.Binary (BinaryError.GitleaksError 1 stderr))) ∧
    github_actions.run flags event_context sarifOutcome commentOutcome 0 stdout stderr =
      ([generate_success_summary], Except.ok 0) ∧
    (∀ findings, sarifOutcome = Except.ok findings →
      github_actions.run flags event_context sarifOutcome commentOutcome 2 stdout stderr =
        ([generate_findings_summary event_context.repository findings], Except.ok 1)) := by
  refine ⟨?_, ?_, ?_, ?_⟩
  · simp [github_actions.run, execute_gitleaks, github_actions.process_exit_code,
      h0, h1, h2, hs]
  · simp [github_actions.run, execute_gitleaks]
  · simp [github_actions.run, execute_gitleaks, github_actions.process_exit_code, hs]
  · intro findings hfo
    simp [github_actions.run, execute_gitleaks, github_actions.process_exit_code,
      hfo, hs]

/-- Witness for C1 amended: at engine exit status 126 with summaries
enabled the run writes the error summary for 126 and returns 126; at
status 1 it propagates the GitleaksError with no summary; at statuses 0
and 2 it writes the success and findings summaries. -/
theorem C1_error_branch_witness :
    github_actions.run flags0 ctx0 (Except.ok []) (Except.ok 0) 126 "" "" =
      ([generate_error_summary 126], Except.ok 126) ∧
    github_actions.run flags0 ctx0 (Except.ok []) (Except.ok 0) 1 "" "" =
      ([], Except.error (Error.Binary (BinaryError.GitleaksError 1 ""))) ∧
    github_actions.run flags0 ctx0 (Except.ok []) (Except.ok 0) 0 "" "" =
      ([generate_success_summary], Except.ok 0) ∧
    github_actions.run flags0 ctx0 (Except.ok []) (Except.ok 0) 2 "" "" =
      ([generate_findings_summary ctx0.repository []], Except.ok 1) := by
  obtain ⟨w1, w2, w3, w4⟩ :=
    C1_error_branch flags0 ctx0 (Except.ok []) (Except.ok 0) 126 "" ""
      (by decide) (by decide) (by decide) rfl
  exact ⟨w1, w2, w3, w4 [] rfl⟩

/- ===================== claim C7: cache-key injectivity ===================== -/

/-- The single-dash string, as a character list. -/
theorem dash_data : ("-" : String).data = ['-'] := rfl

/-- No character of an architecture string is a dash. -/
theorem arch_no_dash (a : Architecture) : ∀ ch ∈ a.as_str.data, ch ≠ '-' := by
  cases a <;> decide

/-- No character of a platform string is a dash. -/
theorem platform_no_dash (p : Platform) : ∀ ch ∈ p.as_str.data, ch ≠ '-' := by
  cases p <;> decide

/-- The three architecture strings are pairwise distinct. -/
theorem arch_as_str_inj (a1 a2 : Architecture) (h : a1.as_str = a2.as_str) : a1 = a2 := by
  cases a1 <;> cases a2 <;> first | rfl | exact absurd h (by decide)

/-- The three platform strings are pairwise distinct. -/
theorem platform_as_str_inj (p1 p2 : Platform) (h : p1.as_str = p2.as_str) : p1 = p2 := by
  cases p1 <;> cases p2 <;> first | rfl | exact absurd h (by decide)

/-- Splitting two equal lists at an explicit dash separator: when neither
left part contains a dash, both parts agree. -/
theorem dash_split : ∀ (l1 l3 l2 l4 : List Char),
    (∀ ch ∈ l1, ch ≠ '-') → (∀ ch ∈ l3, ch ≠ '-') →
    l1 ++ '-' :: l2 = l3 ++ '-' :: l4 → l1 = l3 ∧ l2 = l4 := by
  intro l1
  induction l1 with
  | nil =>
    intro l3 l2 l4 h1 h3 heq
    cases l3 with
    | nil =>
      simp only [List.nil_append] at heq
      exact ⟨rfl, (List.cons.injEq _ _ _ _ ▸ heq).2⟩
    | cons c t =>
      simp only [List.nil_append, List.cons_append, List.cons.injEq] at heq
      exact absurd heq.1.symm (h3 c (by simp))
  | cons a t1 ih =>
    intro l3 l2 l4 h1 h3 heq
    cases l3 with
    | nil =>
      simp only [List.nil_append, List.cons_append, List.cons.injEq] at heq
      exact absurd heq.1 (h1 a (by simp))
    | cons c t3 =>
      simp only [List.cons_append, List.cons.injEq] at heq
      obtain ⟨rfl, heq2⟩ := heq
      obtain ⟨h13, h24⟩ := ih t3 l2 l4
        (fun ch hch => h1 ch (by simp [hch]))
        (fun ch hch => h3 ch (by simp [hch]))
        heq2
      exact ⟨by rw [h13], h24⟩

/-- The reversed character list of a cache key, split at its two rightmost
dash separators. -/
theorem get_cache_key_data_reverse (version : String) (p : Platform) (a : Architecture) :
    (get_cache_key version p a).data.reverse =
      a.as_str.data.reverse ++ '-' ::
        (p.as_str.data.reverse ++ '-' ::
          (version.data.reverse ++ ("gitleaks-" : String).data.reverse)) := by
  simp [get_cache_key, String.data_append, List.reverse_append, dash_data]

/-- Claim C7: get_cache_key is a pure injective function of the
(version, platform, arch) triple: two keys are equal exactly when all
three components are equal, for arbitrary version strings. -/
theorem C7_cache_key_injective (v1 v2 : String) (p1 p2 : Platform) (a1 a2 : Architecture) :
    get_cache_key v1 p1 a1 = get_cache_key v2 p2 a2 ↔ (v1 = v2 ∧ p1 = p2 ∧ a1 = a2) := by
  constructor
  · intro h
    have hdata : (get_cache_key v1 p1 a1).data.reverse =
        (get_cache_key v2 p2 a2).data.reverse := by rw [h]
    rw [get_cache_key_data_reverse, get_cache_key_data_reverse] at hdata
    obtain ⟨harch, hrest⟩ := dash_split _ _ _ _
      (fun ch hch => arch_no_dash a1 ch (List.mem_reverse.mp hch))
      (fun ch hch => arch_no_dash a2 ch (List.mem_reverse.mp hch))
      hdata
    obtain ⟨hplat, hver⟩ := dash_split _ _ _ _
      (fun ch hch => platform_no_dash p1 ch (List.mem_reverse.mp hch))
      (fun ch hch => platform_no_dash p2 ch (List.mem_reverse.mp hch))
      hrest
    refine ⟨?_, ?_, ?_⟩
    · exact String.ext (List.reverse_injective
        (List.append_cancel_right hver))
    · exact platform_as_str_inj p1 p2 (String.ext (List.reverse_injective hplat))
    · exact arch_as_str_inj a1 a2 (String.ext (List.reverse_injective harch))
  · rintro ⟨rfl, rfl, rfl⟩
    rfl
